import Mathlib

/-!
Shallow embedding of `src/ecs.py`, a minimal entity-component-system core.

Modelling choices:
* Python objects compare with default `==` (identity, since neither `Entity`,
  `Component` nor `System` overrides `__eq__`).  Entities are modelled by the
  numeric identity the `World` allocates for them; component and system
  instances carry a type tag (`ctype` / `stype`, standing for the Python
  `type(...)` object) plus an instance identity, so two distinct instances of
  the same class are distinct values.
* The per-entity component dict (`Entity.components`) and the world's
  `defaultdict`-based type index (`World.components`) are modelled as total
  functions with default `none` / `[]`; the `defaultdict` materialising an
  empty bucket on read is observationally invisible in this view.
* `World.push_component` (line 125 of the source) appends the *component*
  object to the type-index bucket, even though the bucket is declared
  `List[Entity]` and every other access treats its elements as entities.
  Bucket elements are therefore modelled by the sum type `Ref`, covering both
  kinds of object the code can put there.
* Python exceptions are modelled with `Except` / an error component in the
  result: `list.remove` on a missing element raises `ValueError`; calling the
  builtin `next` on a list (not an iterator) raises `TypeError`; accessing
  `_get_component` on a `Component` object raises `AttributeError`.
-/

namespace ECS

/-- Python exception kinds that the embedded operations can raise. -/
inductive PyErr where
  | valueError
  | typeError
  | attributeError
deriving DecidableEq

/-- A component instance: `ctype` is the Python `type(...)` tag, `cid`
distinguishes instances of the same class (object identity). -/
structure Component where
  ctype : Nat
  cid : Nat
deriving DecidableEq

/-- An object stored in a type-index bucket.  The source declares buckets as
`List[Entity]`, but `push_component` appends a `Component`, so both can occur
at the Python level; membership tests compare by object identity. -/
inductive Ref where
  | ent (eid : Nat)
  | comp (c : Component)
deriving DecidableEq

/-- A system instance: `stype` is the Python concrete `type(...)` tag, `sid`
distinguishes instances (object identity). -/
structure Sys where
  stype : Nat
  sid : Nat
deriving DecidableEq

/-- Python `list.remove` semantics without the raise: drop the first element
equal to `a`, identity if absent.  Call sites that must raise on a missing
element test membership first, as the source does. -/
def removeFirst [DecidableEq α] : List α → α → List α
  | [], _ => []
  | x :: xs, a => if x = a then xs else x :: removeFirst xs a

/-- The `World` state: `nextId` supplies fresh entity identities, `entities`
is the live-entity list in creation order, `index` is the
`components: Dict[Type[Component], List[Entity]]` defaultdict, `heap` maps an
entity identity to that entity's own `components` dict, and `systems` is the
ordered system registry. -/
structure World where
  nextId : Nat
  entities : List Nat
  index : Nat → List Ref
  heap : Nat → Nat → Option Component
  systems : List Sys

/-- A freshly constructed `World()`: no entities, empty defaultdict, no
systems. -/
def World.empty : World :=
  ⟨0, [], fun _ => [], fun _ _ => none, []⟩

/-- `World.has_entity`: membership of the entity in the live-entity list. -/
def hasEntity (w : World) (e : Nat) : Bool :=
  decide (e ∈ w.entities)

/-- `World.push_entity`: create a fresh empty entity, append it to the
live-entity list, return it. -/
def pushEntity (w : World) : World × Nat :=
  ({ w with
      nextId := w.nextId + 1
      entities := w.entities ++ [w.nextId]
      heap := fun i => if i = w.nextId then (fun _ => none) else w.heap i },
   w.nextId)

/-- `World.pop_entity`: `self.entities.remove(entity)` raises `ValueError`
when the entity is not live; otherwise the first occurrence is removed and the
entity is removed from every index bucket that contains it. -/
def popEntity (w : World) (e : Nat) : World × Option PyErr :=
  if e ∈ w.entities then
    ({ w with
        entities := removeFirst w.entities e
        index := fun t =>
          if Ref.ent e ∈ w.index t then removeFirst (w.index t) (Ref.ent e)
          else w.index t },
     none)
  else (w, some PyErr.valueError)

/-- `World.has_component`: checks `entity in self.components[component_type]`,
i.e. membership of the entity object in the index bucket. -/
def hasComponent (w : World) (e : Nat) (t : Nat) : Bool :=
  decide (Ref.ent e ∈ w.index t)

/-- `World.get_components` body: evaluate `entity._get_component(t)` for each
bucket element, left to right.  A `Component` in the bucket has no
`_get_component` attribute, so Python raises `AttributeError` there. -/
def getComponentsFromBucket (heap : Nat → Nat → Option Component) (t : Nat) :
    List Ref → Except PyErr (List (Option Component))
  | [] => Except.ok []
  | Ref.ent e :: rest =>
      (getComponentsFromBucket heap t rest).map (fun l => heap e t :: l)
  | Ref.comp _ :: _ => Except.error PyErr.attributeError

/-- `World.get_components`. -/
def getComponents (w : World) (t : Nat) : Except PyErr (List (Option Component)) :=
  getComponentsFromBucket w.heap t (w.index t)

/-- `World.get_entities_by_component`: returns the index bucket directly. -/
def getEntitiesByComponent (w : World) (t : Nat) : List Ref :=
  w.index t

/-- `World.get_component_by_entity`: delegate to the entity's own dict
lookup, `dict.get` returning `None` on a miss. -/
def getComponentByEntity (w : World) (e : Nat) (t : Nat) : Option Component :=
  w.heap e t

/-- `World.push_component`: stores the component in the entity's dict under
`type(component)` (overwriting), then line 125 appends the *component object*
(`self.components[type(component)].append(component)`) to the index bucket,
unconditionally. -/
def pushComponent (w : World) (e : Nat) (c : Component) : World :=
  { w with
      heap := fun i =>
        if i = e then (fun t => if t = c.ctype then some c else w.heap e t)
        else w.heap i
      index := fun t =>
        if t = c.ctype then w.index t ++ [Ref.comp c] else w.index t }

/-- `World.pop_component`: `dict.pop(t, None)` on the entity's dict, then
remove the entity from the bucket for `t` when present. -/
def popComponent (w : World) (e : Nat) (t : Nat) : World :=
  { w with
      heap := fun i =>
        if i = e then (fun u => if u = t then none else w.heap e u)
        else w.heap i
      index := fun u =>
        if u = t then
          (if Ref.ent e ∈ w.index t then removeFirst (w.index t) (Ref.ent e)
           else w.index t)
        else w.index u }

/-- `World.has_system`: `any([type(system) == system_type for ...])`, exact
concrete-type comparison. -/
def hasSystem (w : World) (s : Nat) : Bool :=
  w.systems.any (fun x => x.stype == s)

/-- Python builtin `next` applied to a list: a list is iterable but not an
iterator, so `next` raises `TypeError` unconditionally, before the default
argument is even considered. -/
def pyNext (_l : List α) (_default : α) : Except PyErr α :=
  Except.error PyErr.typeError

/-- `World.get_system`: `next([system for system in self.systems if
type(system) == system_type], None)` — the comprehension builds a list, and
`next` on a list raises `TypeError`. -/
def getSystem (w : World) (s : Nat) : Except PyErr (Option Sys) :=
  pyNext ((w.systems.filter (fun x => x.stype == s)).map Option.some) none

/-- `World.push_system`: append to the registry. -/
def pushSystem (w : World) (s : Sys) : World :=
  { w with systems := w.systems ++ [s] }

/-- `World.pop_system`: calls `get_system` (which raises), and would remove
the first match only when `get_system` returned a truthy value. -/
def popSystem (w : World) (s : Nat) : World × Option PyErr :=
  match getSystem w s with
  | Except.error e => (w, some e)
  | Except.ok none => (w, none)
  | Except.ok (some sys) => ({ w with systems := removeFirst w.systems sys }, none)

/-- World states reachable from `World()` by the public mutating operations
(the queries do not change the observable state in this model). -/
inductive Reachable : World → Prop where
  | empty : Reachable World.empty
  | pushEntity {w} : Reachable w → Reachable (pushEntity w).1
  | popEntity {w e} : Reachable w → Reachable (popEntity w e).1
  | pushComponent {w e c} : Reachable w → Reachable (pushComponent w e c)
  | popComponent {w e t} : Reachable w → Reachable (popComponent w e t)
  | pushSystem {w s} : Reachable w → Reachable (pushSystem w s)
  | popSystem {w s} : Reachable w → Reachable (popSystem w s).1

/-- Structural well-formedness maintained by every public operation: entity
identities are below the allocation counter, the live-entity list has no
duplicates, and index buckets only ever hold component objects (a consequence
of line 125 appending components and nothing ever appending entities). -/
structure WF (w : World) : Prop where
  idBound : ∀ e ∈ w.entities, e < w.nextId
  nodup : w.entities.Nodup
  bucketsComp : ∀ t r, r ∈ w.index t → ∃ c, r = Ref.comp c

/-! Concrete states used to evaluate the operations. -/

/-- A component instance of type tag 0. -/
def c1 : Component := ⟨0, 0⟩

/-- A second, distinct component instance of the same type tag 0. -/
def c2 : Component := ⟨0, 1⟩

/-- The world after `w = World(); e = w.push_entity()` (so `e` has id 0). -/
def W1 : World := (pushEntity World.empty).1

/-- `W1` after `w.push_component(e, c1)`. -/
def W1c : World := pushComponent W1 0 c1

/-- `W1c` after `w.push_component(e, c2)` — a second component of the same
type attached to the same entity. -/
def W5 : World := pushComponent W1c 0 c2

/-- The world after `w = World(); w.push_system(s)` with `s` of type tag 0. -/
def W9 : World := pushSystem World.empty ⟨0, 0⟩

/-- The world after registering a single system whose concrete type tag is 1
(standing for a strict subclass of the queried type 0). -/
def W10 : World := pushSystem World.empty ⟨1, 0⟩

/-- C1: after `push_component(e, c)` the entity's own dict does return `c`,
but `has_component(e, type(c))` is `False` and `e` appears 0 times (not once)
in `get_entities_by_component(type(c))`: line 125 appended the component
object, not the entity, to the bucket. -/
theorem C1_attach_breaks_queries :
    getComponentByEntity W1c 0 0 = some c1 ∧
    hasComponent W1c 0 0 = false ∧
    (getEntitiesByComponent W1c 0).count (Ref.ent 0) = 0 := by
  refine ⟨rfl, by decide, by decide⟩

/-- C2: the reachable state `W1c` violates invariant I1 — entity 0 owns a
component of type 0 in its own dict, yet does not appear in the type-index
bucket for tag 0. -/
theorem C2_index_invariant_fails :
    Reachable W1c ∧
    (getComponentByEntity W1c 0 0).isSome = true ∧
    hasComponent W1c 0 0 = false :=
  ⟨Reachable.pushComponent (Reachable.pushEntity Reachable.empty),
   by decide, by decide⟩

/-- C3: `get_system` never returns at all — for every world and every queried
type it raises `TypeError`, because `next` is applied to a list comprehension
(a list, not an iterator). The claim says it never raises. -/
theorem C3_getSystem_always_raises (w : World) (S : Nat) :
    getSystem w S = Except.error PyErr.typeError := rfl

/-- C4: with one attached component, the bucket for its tag has length 1 but
`get_components` raises `AttributeError` (it calls `_get_component` on the
`Component` object sitting in the bucket) instead of returning a length-1
sequence. -/
theorem C4_getComponents_raises :
    getComponents W1c 0 = Except.error PyErr.attributeError ∧
    (getEntitiesByComponent W1c 0).length = 1 :=
  ⟨rfl, rfl⟩

/-- C5: attaching a second component of the same tag does replace the stored
value, but the index bucket grows from 1 to 2 entries — `push_component`
appends unconditionally, creating a duplicate entry for the same
(entity, tag) attachment. -/
theorem C5_duplicate_bucket_entry :
    getComponentByEntity W5 0 0 = some c2 ∧
    (getEntitiesByComponent W1c 0).length = 1 ∧
    (getEntitiesByComponent W5 0).length = 2 :=
  ⟨rfl, rfl, rfl⟩

/-- C8: destroying a non-live entity does raise (`ValueError` from
`list.remove`) with the state unchanged, but `pop_system` of an unregistered
type is not an error-free no-op: it raises `TypeError` (via the broken
`get_system`) instead of silently doing nothing. -/
theorem C8_removal_discipline_eval :
    popEntity World.empty 0 = (World.empty, some PyErr.valueError) ∧
    popSystem World.empty 0 = (World.empty, some PyErr.typeError) := by
  constructor
  · simp [popEntity, World.empty]
  · rfl

/-- C9: after `push_system(s)`, `has_system(type(s))` is `True`; but
`pop_system(type(s))` raises `TypeError` (instead of completing), leaving the
system registered — `has_system` still returns `True` afterwards. -/
theorem C9_system_registry_eval :
    hasSystem W9 0 = true ∧
    (popSystem W9 0).2 = some PyErr.typeError ∧
    hasSystem (popSystem W9 0).1 0 = true :=
  ⟨rfl, rfl, rfl⟩

/-! Helper lemmas about `removeFirst` and the reachability invariant. -/

theorem mem_of_mem_removeFirst [DecidableEq α] {l : List α} {a b : α}
    (h : a ∈ removeFirst l b) : a ∈ l := by
  induction l with
  | nil => simp [removeFirst] at h
  | cons x xs ih =>
    by_cases hx : x = b
    · simp only [removeFirst, if_pos hx] at h
      exact List.mem_cons_of_mem _ h
    · simp only [removeFirst, if_neg hx, List.mem_cons] at h
      rcases h with h | h
      · exact h ▸ List.mem_cons_self _ _
      · exact List.mem_cons_of_mem _ (ih h)

theorem nodup_removeFirst [DecidableEq α] {l : List α} (b : α)
    (h : l.Nodup) : (removeFirst l b).Nodup := by
  induction l with
  | nil => simp [removeFirst]
  | cons x xs ih =>
    rcases List.nodup_cons.mp h with ⟨hx, hxs⟩
    by_cases hb : x = b
    · simpa [removeFirst, if_pos hb] using hxs
    · simp only [removeFirst, if_neg hb]
      exact List.nodup_cons.mpr
        ⟨fun hm => hx (mem_of_mem_removeFirst hm), ih hxs⟩

theorem not_mem_removeFirst_self [DecidableEq α] {l : List α} {a : α}
    (h : l.Nodup) : a ∉ removeFirst l a := by
  induction l with
  | nil => simp [removeFirst]
  | cons x xs ih =>
    rcases List.nodup_cons.mp h with ⟨hx, hxs⟩
    by_cases ha : x = a
    · simpa [removeFirst, if_pos ha, ha] using hx
    · simp only [removeFirst, if_neg ha, List.mem_cons]
      rintro (rfl | hm)
      · exact ha rfl
      · exact ih hxs hm

/-- Every reachable world is well-formed: the public operations preserve the
allocation bound, the no-duplicates property of the live-entity list and the
fact that buckets hold only component objects. -/
theorem reachable_wf {w : World} (h : Reachable w) : WF w := by
  induction h with
  | empty =>
    exact ⟨by simp [World.empty], by simp [World.empty], by simp [World.empty]⟩
  | pushEntity h ih =>
    refine ⟨?_, ?_, ?_⟩
    · intro e he
      simp only [pushEntity, List.mem_append, List.mem_singleton] at he
      rcases he with he | rfl
      · exact Nat.lt_succ_of_lt (ih.idBound e he)
      · exact Nat.lt_succ_self _
    · simp only [pushEntity, List.nodup_append]
      exact ⟨ih.nodup, List.nodup_singleton _,
        fun x hx hx1 => Nat.lt_irrefl _ (List.mem_singleton.mp hx1 ▸ ih.idBound x hx)⟩
    · exact ih.bucketsComp
  | popEntity h ih =>
    rename_i w e
    by_cases he : e ∈ w.entities
    · rw [show popEntity w e =
          ({ w with
              entities := removeFirst w.entities e
              index := fun t =>
                if Ref.ent e ∈ w.index t then removeFirst (w.index t) (Ref.ent e)
                else w.index t },
           none) from by simp [popEntity, he]]
      refine ⟨?_, nodup_removeFirst _ ih.nodup, ?_⟩
      · intro x hx
        exact ih.idBound x (mem_of_mem_removeFirst hx)
      · intro t r hr
        have hr' : r ∈ (if Ref.ent e ∈ w.index t
            then removeFirst (w.index t) (Ref.ent e) else w.index t) := hr
        by_cases hm : Ref.ent e ∈ w.index t
        · rw [if_pos hm] at hr'
          exact ih.bucketsComp t r (mem_of_mem_removeFirst hr')
        · rw [if_neg hm] at hr'
          exact ih.bucketsComp t r hr'
    · rw [show popEntity w e = (w, some PyErr.valueError) from by
        simp [popEntity, he]]
      exact ih
  | pushComponent h ih =>
    rename_i w e c
    refine ⟨ih.idBound, ih.nodup, ?_⟩
    intro t r hr
    have hr' : r ∈ (if t = c.ctype then w.index t ++ [Ref.comp c]
        else w.index t) := hr
    by_cases ht : t = c.ctype
    · rw [if_pos ht, List.mem_append, List.mem_singleton] at hr'
      rcases hr' with hr' | rfl
      · exact ih.bucketsComp t r hr'
      · exact ⟨c, rfl⟩
    · rw [if_neg ht] at hr'
      exact ih.bucketsComp t r hr'
  | popComponent h ih =>
    rename_i w e t
    refine ⟨ih.idBound, ih.nodup, ?_⟩
    intro u r hr
    have hr' : r ∈ (if u = t then
        (if Ref.ent e ∈ w.index t then removeFirst (w.index t) (Ref.ent e)
         else w.index t)
      else w.index u) := hr
    by_cases hu : u = t
    · rw [if_pos hu] at hr'
      by_cases hm : Ref.ent e ∈ w.index t
      · rw [if_pos hm] at hr'
        exact ih.bucketsComp t r (mem_of_mem_removeFirst hr')
      · rw [if_neg hm] at hr'
        exact ih.bucketsComp t r hr'
    · rw [if_neg hu] at hr'
      exact ih.bucketsComp u r hr'
  | pushSystem h ih =>
    exact ⟨ih.idBound, ih.nodup, ih.bucketsComp⟩
  | popSystem h ih =>
    exact ⟨ih.idBound, ih.nodup, ih.bucketsComp⟩

/-- C6: in any reachable world, detaching a component from a live entity
leaves the entity's own lookup for that tag absent, and the entity does not
appear in the type-index bucket for that tag afterwards. -/
theorem C6_detach_removes (w : World) (e t : Nat) (hw : Reachable w)
    (_he : e ∈ w.entities) :
    getComponentByEntity (popComponent w e t) e t = none ∧
    Ref.ent e ∉ getEntitiesByComponent (popComponent w e t) t := by
  have wf := reachable_wf hw
  have hb : Ref.ent e ∉ w.index t := by
    intro hmem
    rcases wf.bucketsComp t _ hmem with ⟨c, hc⟩
    cases hc
  constructor
  · simp [getComponentByEntity, popComponent]
  · simp [getEntitiesByComponent, popComponent, hb]

/-- C6 witness: fresh world with one entity, detach tag 0 from entity 0. -/
theorem C6_detach_removes_witness :
    getComponentByEntity (popComponent W1 0 0) 0 0 = none ∧
    Ref.ent 0 ∉ getEntitiesByComponent (popComponent W1 0 0) 0 :=
  C6_detach_removes W1 0 0 (Reachable.pushEntity Reachable.empty) (by decide)

/-- C7: in any reachable world, destroying a live entity makes `has_entity`
false and leaves the entity absent from every type-index bucket. -/
theorem C7_destroy_removes (w : World) (e : Nat) (hw : Reachable w)
    (he : e ∈ w.entities) :
    hasEntity (popEntity w e).1 e = false ∧
    ∀ t, Ref.ent e ∉ getEntitiesByComponent (popEntity w e).1 t := by
  have wf := reachable_wf hw
  constructor
  · simp only [popEntity, if_pos he, hasEntity, decide_eq_false_iff_not]
    exact not_mem_removeFirst_self wf.nodup
  · intro t
    have hb : Ref.ent e ∉ w.index t := by
      intro hmem
      rcases wf.bucketsComp t _ hmem with ⟨c, hc⟩
      cases hc
    simp [popEntity, if_pos he, getEntitiesByComponent, hb]

/-- C7 witness: fresh world with one entity, destroy entity 0. -/
theorem C7_destroy_removes_witness :
    hasEntity (popEntity W1 0).1 0 = false ∧
    ∀ t, Ref.ent 0 ∉ getEntitiesByComponent (popEntity W1 0).1 t :=
  C7_destroy_removes W1 0 (Reachable.pushEntity Reachable.empty) (by decide)

/-- C10: system lookup matches by exact concrete type — `has_system S` holds
exactly when some registered system has concrete type `S`; a registered
system of a different concrete type (in particular a strict subclass of `S`,
whose Python type object differs from `S`) is never returned by `get_system`
(which never returns) and never removed by `pop_system` (which raises,
leaving the registry intact). -/
theorem C10_exact_type_matching (w : World) (s : Sys) (S : Nat)
    (hs : s ∈ w.systems) (_hne : s.stype ≠ S) :
    (hasSystem w S = true ↔ ∃ x ∈ w.systems, x.stype = S) ∧
    (∀ r : Option Sys, getSystem w S ≠ Except.ok r) ∧
    s ∈ (popSystem w S).1.systems := by
  refine ⟨?_, ?_, hs⟩
  · simp [hasSystem, List.any_eq_true]
  · intro r hr
    simp [getSystem, pyNext] at hr

/-- C10 witness: a single registered system of concrete type 1, queried for
type 0. -/
theorem C10_exact_type_matching_witness :
    ((hasSystem W10 0 = true ↔ ∃ x ∈ W10.systems, x.stype = 0) ∧
     (∀ r : Option Sys, getSystem W10 0 ≠ Except.ok r) ∧
     (⟨1, 0⟩ : Sys) ∈ (popSystem W10 0).1.systems) :=
  C10_exact_type_matching W10 ⟨1, 0⟩ 0 (by decide) (by decide)

end ECS
